import Mathlib

/-!
Verification of the Jack compiler front-end (nithin1249/NAND2TETRIS-JackCompiler).

This file shallowly embeds the parts of the C++ source that the claims
concern: the token model (`Compiler/Tokenizer/TokenTypes.h`), the AST types
(`Compiler/AST/AST.h`), the global class/method registry
(`GlobalRegistry.cpp/.h`), the type-interning pool (`TypeRegistry.cpp/.h`),
the symbol table (`SymbolTable.h`), the Pratt parser
(`Compiler/Parser/PrattParser.cpp`), the `validateMainEntry` check of
`main.cpp`, and (from the specification, whose code generator sources are
not in the tree) the constructor-prologue part of the code generator.

Modelling conventions: C++ pointers into the interning pool are modelled as
indices into an append-only list (the pool never deletes, and
`std::unordered_set<std::unique_ptr<..>>` keeps node addresses stable, so
index identity is pointer identity); the token stream is a list whose head
is the current token, with a default EOF token once the list is exhausted
(the tokenizer stays on EOF); the mutually recursive parser procedures take
a fuel argument and return `none` exactly where the C++ returns `nullptr`.
-/

namespace NandJack

/-- Token categories, from `TokenTypes.h` (the `FLOAT_CONST` variant is the
one referenced by `PrattParser.cpp`; the checked-in `TokenTypes.h` predates
it, so it is added here as the parser uses it). -/
inductive TokenType where
  | KEYWORD
  | SYMBOL
  | IDENTIFIER
  | INT_CONST
  | FLOAT_CONST
  | STRING_CONST
  | END_OF_FILE
deriving DecidableEq, Repr

/-- Keywords of the Jack language, from `TokenTypes.h`. -/
inductive Keyword where
  | CLASS | METHOD | FUNCTION | CONSTRUCTOR
  | INT | BOOLEAN | CHAR | VOID
  | VAR | STATIC | FIELD | LET | DO | IF
  | ELSE | WHILE | RETURN | TRUE_ | FALSE_ | NULL_ | THIS_
deriving DecidableEq, Repr

/-- `keywordToString` from `TokenTypes.h`. -/
def keywordToString : Keyword → String
  | .CLASS => "class"
  | .METHOD => "method"
  | .FUNCTION => "function"
  | .CONSTRUCTOR => "constructor"
  | .INT => "int"
  | .CHAR => "char"
  | .BOOLEAN => "boolean"
  | .VOID => "void"
  | .VAR => "var"
  | .STATIC => "static"
  | .FIELD => "field"
  | .LET => "let"
  | .DO => "do"
  | .IF => "if"
  | .ELSE => "else"
  | .WHILE => "while"
  | .RETURN => "return"
  | .TRUE_ => "true"
  | .FALSE_ => "false"
  | .NULL_ => "null"
  | .THIS_ => "this"

/-- `typeToString` from `TokenTypes.h`. -/
def typeToString : TokenType → String
  | .KEYWORD => "KEYWORD"
  | .SYMBOL => "SYMBOL"
  | .IDENTIFIER => "IDENTIFIER"
  | .INT_CONST => "INT_CONST"
  | .FLOAT_CONST => "FLOAT_CONST"
  | .STRING_CONST => "STRING_CONST"
  | .END_OF_FILE => "EOF"

/-- A token.  The C++ subclasses (`TextToken`, `IntToken`, `FloatToken`,
`KeywordToken`, `EofToken`) are flattened into one record: `value` is what
`getValue()` returns (the text for text tokens, `keywordToString` for
keywords, empty for the others), `intVal` is `IntToken::getInt`, `kw` is
`KeywordToken::getKeyword`, and `floatRaw` stands for the
`FloatToken::getFloat` payload (carried opaquely as the source lexeme,
since nothing in the claims inspects the numeric value of a double). -/
structure Token where
  type : TokenType
  value : String
  intVal : Int := 0
  kw : Keyword := .CLASS
  floatRaw : String := ""
  line : Nat := 0
  col : Nat := 0
deriving DecidableEq, Repr

/-- Construction helper for keyword tokens (value is `keywordToString`, as
`KeywordToken::getValue` computes it). -/
def kwTok (k : Keyword) (line col : Nat) : Token :=
  { type := .KEYWORD, value := keywordToString k, kw := k, line := line, col := col }

/-- Construction helper for symbol tokens. -/
def symTok (s : String) (line col : Nat) : Token :=
  { type := .SYMBOL, value := s, line := line, col := col }

/-- Construction helper for identifier tokens. -/
def identTok (s : String) (line col : Nat) : Token :=
  { type := .IDENTIFIER, value := s, line := line, col := col }

/-- Construction helper for integer-constant tokens (`getValue` of an
`IntToken` falls back to the base class and returns the empty string). -/
def intTok (v : Int) (line col : Nat) : Token :=
  { type := .INT_CONST, value := "", intVal := v, line := line, col := col }

/-- Construction helper for float-constant tokens. -/
def floatTok (raw : String) (line col : Nat) : Token :=
  { type := .FLOAT_CONST, value := "", floatRaw := raw, line := line, col := col }

/-- The EOF token the stream degenerates to once exhausted. -/
def eofTok : Token := { type := .END_OF_FILE, value := "" }

/-- The `Type` struct of `Compiler/AST/AST.h`: a base name plus recursive
generic arguments.  Named `JackType` because `Type` is taken in Lean. -/
inductive JackType where
  | mk (baseType : String) (genericArgs : List JackType)

/-- Base-name accessor, `Type::getBaseType`. -/
def JackType.baseType : JackType → String
  | .mk b _ => b

/-- Generic-argument accessor, `Type::getGenericArgs`. -/
def JackType.genericArgs : JackType → List JackType
  | .mk _ gs => gs

/-- `Type::operator==` from `AST.h`: equal base types, equal generic-argument
counts, and recursively equal generic arguments. -/
def typeEq : JackType → JackType → Bool
  | .mk b1 g1, .mk b2 g2 =>
    if b1 ≠ b2 then false
    else if g1.length ≠ g2.length then false
    else typeEqList g1 g2
where
  /-- Pointwise recursive comparison of the generic-argument lists. -/
  typeEqList : List JackType → List JackType → Bool
  | [], [] => true
  | [], _ :: _ => true
  | _ :: _, [] => true
  | a :: as, b :: bs => typeEq a b && typeEqList as bs

mutual

/-- The structural comparison `Type::operator==` agrees with propositional
equality of the embedded `JackType`. -/
theorem typeEq_iff : ∀ a b : JackType, typeEq a b = true ↔ a = b
  | .mk b1 g1, .mk b2 g2 => by
    unfold typeEq
    by_cases hb : b1 = b2
    · by_cases hl : g1.length = g2.length
      · rw [if_neg (by simp [hb]), if_neg (by simp [hl]), typeEqList_iff g1 g2 hl]
        subst hb
        constructor
        · rintro rfl; rfl
        · intro h; injection h
      · rw [if_neg (by simp [hb]), if_pos (by simp [hl])]
        constructor
        · intro h; simp at h
        · intro h
          injection h with h1 h2
          exact absurd (by rw [h2]) hl
    · rw [if_pos (by simp [hb])]
      constructor
      · intro h; simp at h
      · intro h
        injection h with h1 h2
        exact absurd h1 hb

/-- On equal-length lists, `typeEqList` agrees with list equality. -/
theorem typeEqList_iff : ∀ (xs ys : List JackType), xs.length = ys.length →
    (typeEq.typeEqList xs ys = true ↔ xs = ys)
  | [], [], _ => by simp [typeEq.typeEqList]
  | [], _ :: _, h => by simp at h
  | _ :: _, [], h => by simp at h
  | a :: as, b :: bs, h => by
    unfold typeEq.typeEqList
    rw [Bool.and_eq_true, typeEq_iff a b, typeEqList_iff as bs (by simpa using h)]
    simp

end

/-- Decidable equality for `JackType`, via the structural comparison. -/
instance : DecidableEq JackType :=
  fun a b => decidable_of_iff (typeEq a b = true) (typeEq_iff a b)

/-- The three subroutine kinds, from `AST.h`. -/
inductive SubroutineType where
  | CONSTRUCTOR | FUNCTION | METHOD
deriving DecidableEq, Repr

/-- `MethodSignature` from `GlobalRegistry.h`: return type, parameter types,
subroutine kind, declaration location.  The C++ stores interned `Type`
pointers; values of `JackType` stand for the pointed-to types. -/
structure MethodSignature where
  returnType : JackType
  parameters : List JackType
  subKind : SubroutineType
  line : Int
  column : Int
deriving DecidableEq

/-- `MethodSignature::isStatic` from `GlobalRegistry.h`: true for
`FUNCTION` and for `CONSTRUCTOR`. -/
def MethodSignature.isStatic (s : MethodSignature) : Bool :=
  s.subKind = SubroutineType.FUNCTION || s.subKind = SubroutineType.CONSTRUCTOR

/-- `GlobalRegistry` state: the set of registered class names and the map
class name → (method name → signature).  Sets and maps are modelled as
association lists without duplicate keys (insertion refuses duplicates,
mirroring `unordered_set::insert` / the `count` guards in the C++). -/
structure GlobalRegistry where
  classes : List String
  methods : List (String × List (String × MethodSignature))
deriving DecidableEq

/-- The freshly constructed registry (the standard-library preload is
commented out in `GlobalRegistry.cpp`). -/
def GlobalRegistry.empty : GlobalRegistry := ⟨[], []⟩

/-- `GlobalRegistry::registerClass`: fails on a duplicate, otherwise adds
the class name. -/
def GlobalRegistry.registerClass (r : GlobalRegistry) (className : String) :
    Bool × GlobalRegistry :=
  if className ∈ r.classes then (false, r)
  else (true, { r with classes := className :: r.classes })

/-- Association-list lookup (stands for `unordered_map::find`). -/
def alistFind {α : Type} (key : String) : List (String × α) → Option α
  | [] => none
  | (k, v) :: rest => if k = key then some v else alistFind key rest

/-- Association-list insert-or-replace used when `methods[className]`
default-constructs an empty inner map. -/
def alistInsert {α : Type} (key : String) (v : α) :
    List (String × α) → List (String × α)
  | [] => [(key, v)]
  | (k, w) :: rest => if k = key then (k, v) :: rest else (k, w) :: alistInsert key v rest

/-- `GlobalRegistry::registerMethod`: fails when the method name is already
present in the class's method map, otherwise inserts the signature. -/
def GlobalRegistry.registerMethod (r : GlobalRegistry) (className methodName : String)
    (sig : MethodSignature) : Bool × GlobalRegistry :=
  let classMethods := (alistFind className r.methods).getD []
  if (alistFind methodName classMethods).isSome then (false, r)
  else
    let updated := alistInsert className (alistInsert methodName sig classMethods) r.methods
    (true, { r with methods := updated })

/-- `GlobalRegistry::classExists`: built-ins `int`, `char`, `boolean`,
`float`, `void` always exist; otherwise membership in the registered set. -/
def GlobalRegistry.classExists (r : GlobalRegistry) (className : String) : Bool :=
  if className = "int" || className = "char" ||
      className = "boolean" || className = "float" || className = "void" then
    true
  else className ∈ r.classes

/-- `GlobalRegistry::methodExists`. -/
def GlobalRegistry.methodExists (r : GlobalRegistry) (className methodName : String) : Bool :=
  match alistFind className r.methods with
  | none => false
  | some classMethods => (alistFind methodName classMethods).isSome

/-- `GlobalRegistry::getSignature`: `methods.at(className).at(methodName)`;
`none` models the `std::out_of_range` throw when either key is absent. -/
def GlobalRegistry.getSignature (r : GlobalRegistry) (className methodName : String) :
    Option MethodSignature :=
  match alistFind className r.methods with
  | none => none
  | some classMethods => alistFind methodName classMethods

/-- `validateMainEntry` from `main.cpp`: fetch the `Main.main` signature
(a throw from `getSignature` is caught and re-raised), fail unless it `isStatic`,
fail unless its return type is `void`.  `true` means the check passes and the
build proceeds; `false` means the thrown error is caught in `main` and the
process exits with code 1. -/
def validateMainEntry (r : GlobalRegistry) : Bool :=
  match r.getSignature "Main" "main" with
  | none => false
  | some sig =>
    if ¬ sig.isStatic then false
    else if sig.returnType ≠ JackType.mk "void" [] then false
    else true

/-- The registry obtained by registering a list of class names in order on
a fresh registry (the reachable `classes` states). -/
def registryOfClasses (names : List String) : GlobalRegistry :=
  names.foldl (fun r n => (r.registerClass n).2) GlobalRegistry.empty

/-- The interning pool of `TypeRegistry.h`, modelled as the list of master
instances in insertion order.  The C++ `unordered_set<unique_ptr<Type>>` is
node-based, never erases, and hands out raw pointers to the stored nodes, so
a pointer is faithfully represented by the index of its node in insertion
order; `TypeEq` (the set's equality) is `Type::operator==`, i.e. `typeEq`. -/
def TypePool : Type := List JackType

/-- Index of the first structurally equal entry, i.e. the pointer that
`pool.find(temp)` returns (the hash of `TypeHasher` is a function of the
structure alone, so hash lookup finds exactly the `TypeEq`-equal entry). -/
def poolFind (pool : List JackType) (t : JackType) : Option Nat :=
  match pool with
  | [] => none
  | u :: rest => if typeEq u t then some 0 else (poolFind rest t).map (· + 1)

/-- `TypeRegistry::getOrCreate`: return the existing entry's pointer when a
structurally equal type is already interned, otherwise move a copy into the
pool and return the new entry's pointer. -/
def getOrCreate (pool : List JackType) (t : JackType) : Nat × List JackType :=
  match poolFind pool t with
  | some i => (i, pool)
  | none => (pool.length, pool ++ [t])

/-- `TypeRegistry::getPrimitive`: intern a type with the given base name and
no generic arguments. -/
def getPrimitive (pool : List JackType) (base : String) : Nat × List JackType :=
  getOrCreate pool (JackType.mk base [])

/-- Symbol kinds, from `SymbolTable.h`. -/
inductive SymbolKind where
  | STATIC | FIELD | ARG | LCL | NONE
deriving DecidableEq, Repr

/-- A symbol-table entry, from `SymbolTable.h`. -/
structure Symbol where
  type : String
  kind : SymbolKind
  index : Int
  declLine : Int
  declCol : Int
deriving DecidableEq, Repr

/-- Per-kind running index counters of the `SymbolTable`. -/
structure KindIndices where
  staticIdx : Nat := 0
  fieldIdx : Nat := 0
  argIdx : Nat := 0
  lclIdx : Nat := 0
deriving DecidableEq, Repr

/-- Read the counter of a kind. -/
def KindIndices.get (ix : KindIndices) : SymbolKind → Nat
  | .STATIC => ix.staticIdx
  | .FIELD => ix.fieldIdx
  | .ARG => ix.argIdx
  | .LCL => ix.lclIdx
  | .NONE => 0

/-- Bump the counter of a kind. -/
def KindIndices.bump (ix : KindIndices) : SymbolKind → KindIndices
  | .STATIC => { ix with staticIdx := ix.staticIdx + 1 }
  | .FIELD => { ix with fieldIdx := ix.fieldIdx + 1 }
  | .ARG => { ix with argIdx := ix.argIdx + 1 }
  | .LCL => { ix with lclIdx := ix.lclIdx + 1 }
  | .NONE => ix

/-- The `SymbolTable` state: a class scope holding `STATIC`/`FIELD` symbols,
a subroutine scope holding `ARG`/`LCL` symbols, and the running index
counters.  (The snapshot history is irrelevant to the claims and omitted;
it only replays states built by `define`.) -/
structure SymbolTable where
  classScope : List (String × Symbol)
  subRoutineScope : List (String × Symbol)
  indices : KindIndices
deriving DecidableEq, Repr

/-- The freshly constructed table: empty scopes, all counters 0. -/
def SymbolTable.empty : SymbolTable := ⟨[], [], {}⟩

/-- Whether a kind is class-scoped (`STATIC`/`FIELD`) rather than
subroutine-scoped (`ARG`/`LCL`). -/
def SymbolKind.isClassScoped : SymbolKind → Bool
  | .STATIC | .FIELD => true
  | _ => false

/-- Modelled from the spec: `SymbolTable.cpp` is not in the tree (only
`SymbolTable.h`).  Per the header documentation of `define` ("Adds the
variable to the appropriate scope (class or subroutine) based on its kind,
assigns it the next available index, and increments the index counter for
that kind. ... @throws std::runtime_error if the variable is already
defined in the current scope") and spec §9 ("Shadowing of class-scope names
by subroutine-scope names: the source allows it via search order"): the
duplicate check is against the scope the kind belongs to only, so a
subroutine-scope name may coincide with a class-scope name.  `none` models
the throw. -/
def SymbolTable.define (st : SymbolTable) (name ty : String) (kind : SymbolKind)
    (line col : Int) : Option SymbolTable :=
  let sym : Symbol := ⟨ty, kind, Int.ofNat (st.indices.get kind), line, col⟩
  if kind.isClassScoped then
    if (alistFind name st.classScope).isSome then none
    else some ⟨(name, sym) :: st.classScope, st.subRoutineScope, st.indices.bump kind⟩
  else
    if (alistFind name st.subRoutineScope).isSome then none
    else some ⟨st.classScope, (name, sym) :: st.subRoutineScope, st.indices.bump kind⟩

/-- Modelled from the spec: `SymbolTable::lookup` per its header
documentation — "Checks subroutine scope first, then class scope". -/
def SymbolTable.lookup (st : SymbolTable) (name : String) : Option Symbol :=
  match alistFind name st.subRoutineScope with
  | some sym => some sym
  | none => alistFind name st.classScope

/-- `SymbolTable::kindOf`: the found symbol's kind, `NONE` when absent. -/
def SymbolTable.kindOf (st : SymbolTable) (name : String) : SymbolKind :=
  match st.lookup name with
  | some sym => sym.kind
  | none => .NONE

/-- Expression nodes, from `AST.h`.  A child is `Option Expr` exactly where
`PrattParser.cpp` can store a null child pointer (unary operands, the left
operand fed to a led handler, call receivers, array-access bases, and the
two expression slots of a `let`). -/
inductive Expr where
  | intLit (value : Int) (line col : Nat)
  | floatLit (raw : String) (line col : Nat)
  | strLit (value : String) (line col : Nat)
  | keywordLit (value : Keyword) (line col : Nat)
  | ident (name : String) (generics : List JackType) (line col : Nat)
  | unaryOp (op : Char) (operand : Option Expr) (line col : Nat)
  | binaryOp (left : Option Expr) (op : Char) (right : Expr) (line col : Nat)
  | call (receiver : Option Expr) (name : String) (args : List Expr) (line col : Nat)
  | arrayAccess (base : Option Expr) (index : Expr) (line col : Nat)

/-- `ExpressionNode::isCall`: overridden to `true` only by `CallNode`. -/
def Expr.isCall : Expr → Bool
  | .call _ _ _ _ _ => true
  | _ => false

/-- Statement nodes, from `AST.h`. -/
inductive Stmt where
  | letStmt (varName : String) (index : Option Expr) (value : Option Expr) (line col : Nat)
  | ifStmt (cond : Expr) (thenBranch : List Stmt) (elseBranch : List Stmt) (line col : Nat)
  | whileStmt (cond : Expr) (body : List Stmt) (line col : Nat)
  | doStmt (callee : Expr) (line col : Nat)
  | returnStmt (value : Option Expr) (line col : Nat)

/-- A parameter `(type, name)`, from `AST.h`. -/
structure Parameter where
  type : JackType
  name : String

/-- A `var` declaration line, from `AST.h` (`VarDecNode`). -/
structure VarDecNode where
  type : JackType
  names : List String
  line : Nat
  col : Nat

/-- `static`/`field` distinction of a class-variable declaration. -/
inductive ClassVarKind where
  | STATIC | FIELD
deriving DecidableEq, Repr

/-- A class-variable declaration, from `AST.h` (`ClassVarDecNode`). -/
structure ClassVarDecNode where
  kind : ClassVarKind
  type : JackType
  names : List String
  line : Nat
  col : Nat

/-- A subroutine declaration, from `AST.h` (`SubroutineDecNode`). -/
structure SubroutineDecNode where
  subType : SubroutineType
  returnType : JackType
  name : String
  params : List Parameter
  locals : List VarDecNode
  body : List Stmt
  line : Nat
  col : Nat

/-- A class declaration, from `AST.h` (`ClassNode`). -/
structure ClassNode where
  name : String
  vars : List ClassVarDecNode
  subs : List SubroutineDecNode
  line : Nat
  col : Nat

/-- `ParseError` from `PrattParser.h`. -/
structure ParseError where
  line : Nat
  column : Nat
  message : String
deriving DecidableEq, Repr

/-- Parser state: the remaining token stream (head = `currentToken`) and the
collected error list. -/
structure PState where
  tokens : List Token
  errors : List ParseError
deriving DecidableEq, Repr

/-- The current token; once the stream is exhausted the tokenizer stays on
EOF. -/
def PState.cur (s : PState) : Token := s.tokens.headD eofTok

/-- `PrattParser::advance`. -/
def PState.adv (s : PState) : PState := { s with tokens := s.tokens.tail }

/-- `PrattParser::reportError`: append an error at the current token's
line and column. -/
def PState.report (s : PState) (message : String) : PState :=
  { s with errors := s.errors ++ [⟨s.cur.line, s.cur.col, message⟩] }

/-- `PrattParser::check`: current token has the given type, and the given
value unless the value is empty. -/
def PState.check (s : PState) (type : TokenType) (value : String := "") : Bool :=
  if s.cur.type ≠ type then false
  else if value ≠ "" && s.cur.value ≠ value then false
  else true

/-- `PrattParser::match`: `check` and consume on success. -/
def PState.tryMatch (s : PState) (type : TokenType) (value : String := "") :
    Bool × PState :=
  if s.check type value then (true, s.adv) else (false, s)

/-- Keywords that are safe harbors for `synchronize`. -/
def isHarborKeyword (val : String) : Bool :=
  val = "class" || val = "constructor" || val = "function" ||
  val = "method" || val = "var" || val = "let" ||
  val = "do" || val = "if" || val = "while" || val = "return"

/-- The token-discarding loop of `PrattParser::synchronize`, acting on the
stream after the initial `advance`. -/
def syncLoop : List Token → List Token
  | [] => []
  | t :: rest =>
    if t.type = .END_OF_FILE then t :: rest
    else if t.type = .SYMBOL && t.value = ";" then rest
    else if t.type = .KEYWORD && isHarborKeyword t.value then t :: rest
    else syncLoop rest

/-- `PrattParser::synchronize`: advance past the offending token, then
discard tokens up to a safe harbor. -/
def PState.synchronize (s : PState) : PState :=
  { s with tokens := syncLoop s.tokens.tail }

/-- `PrattParser::expect`: consume a matching token, otherwise report
the mismatch and enter panic-mode recovery. -/
def PState.expect (s : PState) (type : TokenType) (value : String := "") : PState :=
  match s.tryMatch type value with
  | (true, s2) => s2
  | (false, _) =>
    let expected := if value = "" then "Token Type " ++ typeToString type else value
    let found0 := s.cur.value
    let found := if found0 = "" then "EOF or Unknown" else found0
    (s.report ("Expected '" ++ expected ++ "' but found '" ++ found ++ "'")).synchronize

/-- Handler names standing for the nud member-function pointers of the
dispatch table. -/
inductive NudTag where
  | integer | float | string | identifier | group | unary | keyword
deriving DecidableEq, Repr

/-- Handler names standing for the led member-function pointers. -/
inductive LedTag where
  | binary | callLed | indexLed
deriving DecidableEq, Repr

-- The numeric values of the `Precedence` enum of `PrattParser.h`.
namespace Prec

/-- `Precedence::LOWEST` (0). -/
def LOWEST : Nat := 0

/-- `Precedence::EQUALS` (1). -/
def EQUALS : Nat := 1

/-- `Precedence::LESS_GREATER` (2). -/
def LESS_GREATER : Nat := 2

/-- `Precedence::SUM` (3). -/
def SUM : Nat := 3

/-- `Precedence::PRODUCT` (4). -/
def PRODUCT : Nat := 4

/-- `Precedence::PREFIX` (5), for unary operators. -/
def UNARY : Nat := 5

/-- `Precedence::CALL` (6). -/
def CALL : Nat := 6

/-- `Precedence::INDEX` (7). -/
def INDEX : Nat := 7

end Prec

/-- A row of the dispatch table (`PrattParser::ParseRule`). -/
structure ParseRule where
  nud : Option NudTag
  led : Option LedTag
  precedence : Nat
deriving DecidableEq, Repr

/-- The lexeme-keyed dispatch map built by `initializeRules` (`textRules`). -/
def textRules : String → Option ParseRule
  | "(" => some ⟨some .group, none, Prec.LOWEST⟩
  | "~" => some ⟨some .unary, none, Prec.UNARY⟩
  | "-" => some ⟨some .unary, some .binary, Prec.SUM⟩
  | "+" => some ⟨none, some .binary, Prec.SUM⟩
  | "*" => some ⟨none, some .binary, Prec.PRODUCT⟩
  | "/" => some ⟨none, some .binary, Prec.PRODUCT⟩
  | "&" => some ⟨none, some .binary, Prec.PRODUCT⟩
  | "|" => some ⟨none, some .binary, Prec.SUM⟩
  | "=" => some ⟨none, some .binary, Prec.EQUALS⟩
  | "<" => some ⟨none, some .binary, Prec.LESS_GREATER⟩
  | ">" => some ⟨none, some .binary, Prec.LESS_GREATER⟩
  | "." => some ⟨none, some .callLed, Prec.CALL⟩
  | "[" => some ⟨none, some .indexLed, Prec.INDEX⟩
  | "this" => some ⟨some .keyword, none, Prec.LOWEST⟩
  | "true" => some ⟨some .keyword, none, Prec.LOWEST⟩
  | "false" => some ⟨some .keyword, none, Prec.LOWEST⟩
  | "null" => some ⟨some .keyword, none, Prec.LOWEST⟩
  | _ => none

/-- The category-keyed dispatch map built by `initializeRules`
(`typeRules`). -/
def typeRules : TokenType → Option ParseRule
  | .INT_CONST => some ⟨some .integer, none, Prec.LOWEST⟩
  | .FLOAT_CONST => some ⟨some .float, none, Prec.LOWEST⟩
  | .STRING_CONST => some ⟨some .string, none, Prec.LOWEST⟩
  | .IDENTIFIER => some ⟨some .identifier, none, Prec.LOWEST⟩
  | _ => none

/-- `PrattParser::getRule`: lexeme rules for symbols and keywords first,
then the category rules, then the null rule. -/
def getRule (t : Token) : ParseRule :=
  match (if t.type = .SYMBOL || t.type = .KEYWORD then textRules t.value else none) with
  | some r => r
  | none =>
    match typeRules t.type with
    | some r => r
    | none => ⟨none, none, Prec.LOWEST⟩

/-- First character of a lexeme (`getValue()[0]`, applied to the
single-character operator symbols). -/
def strHead (s : String) : Char := s.toList.headD ' '

mutual

/-- `PrattParser::parseExpression`: dispatch on the current token's nud
(reporting and synchronizing when there is none), then fold led handlers
while the current token's precedence exceeds the bound. -/
def parseExpression : Nat → Nat → PState → Option Expr × PState
  | 0, _, s => (none, s)
  | fuel + 1, precedence, s =>
    match (getRule s.cur).nud with
    | none => (none, (s.report "Unexpected token starting an expression").synchronize)
    | some tag =>
      let r := runNud fuel tag s
      ledLoop fuel precedence r.1 r.2

/-- The `while (precedence < getRule(currentToken).precedence)` loop of
`parseExpression`; breaks when the current token has no led. -/
def ledLoop : Nat → Nat → Option Expr → PState → Option Expr × PState
  | 0, _, left, s => (left, s)
  | fuel + 1, precedence, left, s =>
    if precedence < (getRule s.cur).precedence then
      match (getRule s.cur).led with
      | none => (left, s)
      | some tag =>
        let r := runLed fuel tag left s
        ledLoop fuel precedence r.1 r.2
    else (left, s)

/-- Dispatch to the nud handler named by the tag. -/
def runNud : Nat → NudTag → PState → Option Expr × PState
  | 0, _, s => (none, s)
  | fuel + 1, tag, s =>
    match tag with
    | .integer => parseIntegerNud s
    | .float => parseFloatNud s
    | .string => parseStringNud s
    | .identifier => parseIdentifierNud fuel s
    | .group => parseGroupNud fuel s
    | .unary => parseUnaryNud fuel s
    | .keyword => parseKeywordNud s

/-- Dispatch to the led handler named by the tag. -/
def runLed : Nat → LedTag → Option Expr → PState → Option Expr × PState
  | 0, _, _, s => (none, s)
  | fuel + 1, tag, left, s =>
    match tag with
    | .binary => parseBinaryLed fuel left s
    | .callLed => parseCallLed fuel left s
    | .indexLed => parseIndexLed fuel left s

/-- `PrattParser::parseIntegerNud`. -/
def parseIntegerNud (s : PState) : Option Expr × PState :=
  (some (.intLit s.cur.intVal s.cur.line s.cur.col), s.adv)

/-- `PrattParser::parseFloatNud`. -/
def parseFloatNud (s : PState) : Option Expr × PState :=
  (some (.floatLit s.cur.floatRaw s.cur.line s.cur.col), s.adv)

/-- `PrattParser::parseStringNud`. -/
def parseStringNud (s : PState) : Option Expr × PState :=
  (some (.strLit s.cur.value s.cur.line s.cur.col), s.adv)

/-- `PrattParser::parseKeywordNud`. -/
def parseKeywordNud (s : PState) : Option Expr × PState :=
  (some (.keywordLit s.cur.kw s.cur.line s.cur.col), s.adv)

/-- `PrattParser::parseIdentifierNud`: an identifier; `Array` may absorb
generic arguments; a following `(` turns it into a receiverless call. -/
def parseIdentifierNud : Nat → PState → Option Expr × PState
  | 0, s => (none, s)
  | fuel + 1, s =>
    let line := s.cur.line
    let col := s.cur.col
    let name := s.cur.value
    let s1 := s.adv
    let gr :=
      if name = "Array" && s1.check .SYMBOL "<" then
        let r := typeArgsLoop fuel [] s1.adv
        (r.1, r.2.expect .SYMBOL ">")
      else ([], s1)
    match gr.2.tryMatch .SYMBOL "(" with
    | (true, s2) =>
      let ar := parseExpressionList fuel s2
      (some (.call none name ar.1 line col), ar.2.expect .SYMBOL ")")
    | (false, s2) => (some (.ident name gr.1 line col), s2)

/-- `PrattParser::parseUnaryNud`. -/
def parseUnaryNud : Nat → PState → Option Expr × PState
  | 0, s => (none, s)
  | fuel + 1, s =>
    let line := s.cur.line
    let col := s.cur.col
    let op := strHead s.cur.value
    let r := parseExpression fuel Prec.UNARY s.adv
    (some (.unaryOp op r.1 line col), r.2)

/-- `PrattParser::parseGroupNud`. -/
def parseGroupNud : Nat → PState → Option Expr × PState
  | 0, s => (none, s)
  | fuel + 1, s =>
    let r := parseExpression fuel Prec.LOWEST s.adv
    match r.1 with
    | none => (none, r.2)
    | some e => (some e, r.2.expect .SYMBOL ")")

/-- `PrattParser::parseBinaryLed`: capture the operator and its precedence,
parse the right-hand side at the same precedence, except one lower for the
right-associative `=`. -/
def parseBinaryLed : Nat → Option Expr → PState → Option Expr × PState
  | 0, _, s => (none, s)
  | fuel + 1, left, s =>
    let line := s.cur.line
    let col := s.cur.col
    let op := strHead s.cur.value
    let precedence := (getRule s.cur).precedence
    let nextPrecedence := if op = '=' then precedence - 1 else precedence
    let r := parseExpression fuel nextPrecedence s.adv
    match r.1 with
    | none => (none, r.2)
    | some right => (some (.binaryOp left op right line col), r.2)

/-- `PrattParser::parseCallLed` for `.`. -/
def parseCallLed : Nat → Option Expr → PState → Option Expr × PState
  | 0, _, s => (none, s)
  | fuel + 1, left, s =>
    let line := s.cur.line
    let col := s.cur.col
    let s1 := s.adv
    let methodName := s1.cur.value
    let s2 := (s1.expect .IDENTIFIER "").expect .SYMBOL "("
    let ar := parseExpressionList fuel s2
    (some (.call left methodName ar.1 line col), ar.2.expect .SYMBOL ")")

/-- `PrattParser::parseIndexLed` for `[`. -/
def parseIndexLed : Nat → Option Expr → PState → Option Expr × PState
  | 0, _, s => (none, s)
  | fuel + 1, left, s =>
    let line := s.cur.line
    let col := s.cur.col
    let r := parseExpression fuel Prec.LOWEST s.adv
    match r.1 with
    | none => (none, r.2)
    | some ix =>
      let s2 :=
        if ¬ r.2.check .SYMBOL "]" then
          (r.2.report ("Expected operator or ']' but found '" ++ r.2.cur.value ++ "'")).synchronize
        else r.2
      (some (.arrayAccess left ix line col), s2.expect .SYMBOL "]")

/-- `PrattParser::parseExpressionList`. -/
def parseExpressionList : Nat → PState → List Expr × PState
  | 0, s => ([], s)
  | fuel + 1, s =>
    if s.check .SYMBOL ")" then ([], s)
    else exprListLoop fuel [] s

/-- The do-while of `parseExpressionList`: collect expressions separated by
commas; on a token that is neither `,` nor `)`, report, synchronize and
break. -/
def exprListLoop : Nat → List Expr → PState → List Expr × PState
  | 0, acc, s => (acc, s)
  | fuel + 1, acc, s =>
    let r := parseExpression fuel Prec.LOWEST s
    match r.1 with
    | none => (acc, r.2)
    | some e =>
      let acc2 := acc ++ [e]
      if ¬ r.2.check .SYMBOL "," && ¬ r.2.check .SYMBOL ")" then
        (acc2, (r.2.report ("Expected ',' or ')' but found '" ++ r.2.cur.value ++ "'")).synchronize)
      else
        match r.2.tryMatch .SYMBOL "," with
        | (true, s2) => exprListLoop fuel acc2 s2
        | (false, s2) => (acc2, s2)

/-- `PrattParser::parseType`: a primitive (`int`, `char`, `boolean`,
`float`), a class identifier, or `void` when allowed; then optional
`<type, ...>` generic arguments. -/
def parseType : Nat → Bool → PState → Option JackType × PState
  | 0, _, s => (none, s)
  | fuel + 1, allowVoid, s =>
    let val := s.cur.value
    let isPrimitive := val = "int" || val = "char" || val = "boolean" || val = "float"
    let isVoid := val = "void"
    let isClass := s.cur.type = TokenType.IDENTIFIER
    if isPrimitive || isClass || (isVoid && allowVoid) then
      let s1 := s.adv
      match s1.tryMatch .SYMBOL "<" with
      | (true, s2) =>
        let r := typeArgsLoop fuel [] s2
        (some (JackType.mk val r.1), r.2.expect .SYMBOL ">")
      | (false, s2) => (some (JackType.mk val []), s2)
    else
      if isVoid && ¬ allowVoid then
        (none, s.report "Variable cannot be of type 'void'.")
      else (none, s.report "Expected a valid type.")

/-- The `do { parseType } while (match(','))` loop used for generic
arguments in `parseType` and `parseIdentifierNud`. -/
def typeArgsLoop : Nat → List JackType → PState → List JackType × PState
  | 0, acc, s => (acc, s)
  | fuel + 1, acc, s =>
    let r := parseType fuel false s
    let acc2 := match r.1 with
      | some t => acc ++ [t]
      | none => acc
    match r.2.tryMatch .SYMBOL "," with
    | (true, s2) => typeArgsLoop fuel acc2 s2
    | (false, s2) => (acc2, s2)

/-- `PrattParser::parseParameterList`. -/
def parseParameterList : Nat → PState → List Parameter × PState
  | 0, s => ([], s)
  | fuel + 1, s =>
    if s.check .SYMBOL ")" then ([], s)
    else paramLoop fuel [] s

/-- The do-while of `parseParameterList`. -/
def paramLoop : Nat → List Parameter → PState → List Parameter × PState
  | 0, acc, s => (acc, s)
  | fuel + 1, acc, s =>
    let r := parseType fuel false s
    match r.1 with
    | none => (acc, r.2)
    | some ty =>
      if r.2.cur.type = TokenType.IDENTIFIER then
        let acc2 := acc ++ [⟨ty, r.2.cur.value⟩]
        match r.2.adv.tryMatch .SYMBOL "," with
        | (true, s2) => paramLoop fuel acc2 s2
        | (false, s2) => (acc2, s2)
      else (acc, r.2.report "Expected parameter name after type.")

/-- `PrattParser::parseStatements`. -/
def parseStatements : Nat → PState → List Stmt × PState
  | 0, s => ([], s)
  | fuel + 1, s => stmtsLoop fuel [] s

/-- The statement loop of `parseStatements`, including the trailing
missing-brace report. -/
def stmtsLoop : Nat → List Stmt → PState → List Stmt × PState
  | 0, acc, s => (acc, s)
  | fuel + 1, acc, s =>
    if ¬ s.check .SYMBOL "\x7d" && ¬ s.check .END_OF_FILE "" then
      let val := s.cur.value
      if val = "let" then stmtsStep fuel acc (parseLetStatement fuel s)
      else if val = "if" then stmtsStep fuel acc (parseIfStatement fuel s)
      else if val = "while" then stmtsStep fuel acc (parseWhileStatement fuel s)
      else if val = "do" then stmtsStep fuel acc (parseDoStatement fuel s)
      else if val = "return" then stmtsStep fuel acc (parseReturnStatement fuel s)
      else
        stmtsLoop fuel acc
          ((s.report "Expected a statement (let, if, while, do, return).").synchronize)
    else
      if s.check .END_OF_FILE "" && ¬ s.check .SYMBOL "\x7d" then
        (acc, s.report "Missing '\x7d' at end of subroutine.")
      else (acc, s)

/-- Push a parsed statement (when non-null) and continue the loop. -/
def stmtsStep : Nat → List Stmt → Option Stmt × PState → List Stmt × PState
  | 0, acc, r => (acc, r.2)
  | fuel + 1, acc, r =>
    match r.1 with
    | some st => stmtsLoop fuel (acc ++ [st]) r.2
    | none => stmtsLoop fuel acc r.2

/-- `PrattParser::parseLetStatement`. -/
def parseLetStatement : Nat → PState → Option Stmt × PState
  | 0, s => (none, s)
  | fuel + 1, s =>
    let line := s.cur.line
    let col := s.cur.col
    let s1 := s.adv
    let varName := s1.cur.value
    let s2 := s1.expect .IDENTIFIER ""
    let ir : Option Expr × PState :=
      match s2.tryMatch .SYMBOL "[" with
      | (true, s3) =>
        let r := parseExpression fuel Prec.LOWEST s3
        (r.1, r.2.expect .SYMBOL "]")
      | (false, s3) => (none, s3)
    let s4 := ir.2.expect .SYMBOL "="
    let vr := parseExpression fuel Prec.LOWEST s4
    let s5 :=
      if ¬ vr.2.check .SYMBOL ";" && ¬ vr.2.check .SYMBOL "," && ¬ vr.2.check .SYMBOL "]" then
        (vr.2.report ("Expected an operator or ';' but found '" ++ vr.2.cur.value ++ "'")).synchronize
      else vr.2
    (some (.letStmt varName ir.1 vr.1 line col), s5.expect .SYMBOL ";")

/-- `PrattParser::parseIfStatement`. -/
def parseIfStatement : Nat → PState → Option Stmt × PState
  | 0, s => (none, s)
  | fuel + 1, s =>
    let line := s.cur.line
    let col := s.cur.col
    let s1 := s.adv.expect .SYMBOL "("
    let cr := parseExpression fuel Prec.LOWEST s1
    match cr.1 with
    | none => (none, cr.2)
    | some cond =>
      let s2 :=
        if ¬ cr.2.check .SYMBOL ")" then
          (cr.2.report ("Expected operator or ')' but found '" ++ cr.2.cur.value ++ "'")).synchronize
        else cr.2
      let s3 := (s2.expect .SYMBOL ")").expect .SYMBOL "\x7b"
      let tr := parseStatements fuel s3
      let s4 := tr.2.expect .SYMBOL "\x7d"
      match s4.tryMatch .KEYWORD "else" with
      | (true, s5) =>
        let er := parseStatements fuel (s5.expect .SYMBOL "\x7b")
        (some (.ifStmt cond tr.1 er.1 line col), er.2.expect .SYMBOL "\x7d")
      | (false, s5) => (some (.ifStmt cond tr.1 [] line col), s5)

/-- `PrattParser::parseWhileStatement`. -/
def parseWhileStatement : Nat → PState → Option Stmt × PState
  | 0, s => (none, s)
  | fuel + 1, s =>
    let line := s.cur.line
    let col := s.cur.col
    let s1 := s.adv.expect .SYMBOL "("
    let cr := parseExpression fuel Prec.LOWEST s1
    match cr.1 with
    | none => (none, cr.2)
    | some cond =>
      let s2 :=
        if ¬ cr.2.check .SYMBOL ")" then
          (cr.2.report ("Expected operator or ')' but found '" ++ cr.2.cur.value ++ "'")).synchronize
        else cr.2
      let s3 := (s2.expect .SYMBOL ")").expect .SYMBOL "\x7b"
      let br := parseStatements fuel s3
      (some (.whileStmt cond br.1 line col), br.2.expect .SYMBOL "\x7d")

/-- `PrattParser::parseDoStatement`: parse the body expression at lowest
precedence; it must be a call, otherwise report and produce no statement. -/
def parseDoStatement : Nat → PState → Option Stmt × PState
  | 0, s => (none, s)
  | fuel + 1, s =>
    let line := s.cur.line
    let col := s.cur.col
    let r := parseExpression fuel Prec.LOWEST s.adv
    match r.1 with
    | none => (none, r.2)
    | some e =>
      if ¬ e.isCall then
        (none, r.2.report "The 'do' keyword must be followed by a subroutine call.")
      else
        let s2 :=
          if ¬ r.2.check .SYMBOL ";" then
            (r.2.report ("Expected ';' after subroutine call but found '" ++ r.2.cur.value ++ "'")).synchronize
          else r.2
        (some (.doStmt e line col), s2.expect .SYMBOL ";")

/-- `PrattParser::parseReturnStatement`. -/
def parseReturnStatement : Nat → PState → Option Stmt × PState
  | 0, s => (none, s)
  | fuel + 1, s =>
    let line := s.cur.line
    let col := s.cur.col
    let s1 := s.adv
    if ¬ s1.check .SYMBOL ";" then
      let r := parseExpression fuel Prec.LOWEST s1
      match r.1 with
      | none => (none, r.2.report "Expected expression after 'return'")
      | some e => (some (.returnStmt (some e) line col), r.2.expect .SYMBOL ";")
    else (some (.returnStmt none line col), s1.expect .SYMBOL ";")

/-- `PrattParser::parseLocalVars`: the `while (match(KEYWORD, "var"))`
loop of local-variable declarations. -/
def parseLocalVars : Nat → List VarDecNode → PState → List VarDecNode × PState
  | 0, acc, s => (acc, s)
  | fuel + 1, acc, s =>
    match s.tryMatch .KEYWORD "var" with
    | (false, s1) => (acc, s1)
    | (true, s1) =>
      let line := s1.cur.line
      let col := s1.cur.col
      let tr := parseType fuel false s1
      match tr.1 with
      | none => parseLocalVars fuel acc tr.2.synchronize
      | some ty =>
        let nr := varNamesLoop fuel [] tr.2
        let s2 := nr.2.expect .SYMBOL ";"
        parseLocalVars fuel (acc ++ [⟨ty, nr.1, line, col⟩]) s2

/-- The name-list do-while of `parseLocalVars` (break on a missing
name after reporting). -/
def varNamesLoop : Nat → List String → PState → List String × PState
  | 0, acc, s => (acc, s)
  | fuel + 1, acc, s =>
    if s.cur.type = TokenType.IDENTIFIER then
      let acc2 := acc ++ [s.cur.value]
      match s.adv.tryMatch .SYMBOL "," with
      | (true, s2) => varNamesLoop fuel acc2 s2
      | (false, s2) => (acc2, s2)
    else (acc, s.report "Expected variable name after type in 'var' declaration.")

/-- `PrattParser::parseClassVarDec`. -/
def parseClassVarDec : Nat → PState → Option ClassVarDecNode × PState
  | 0, s => (none, s)
  | fuel + 1, s =>
    let line := s.cur.line
    let col := s.cur.col
    let kind : ClassVarKind := if s.cur.value = "static" then .STATIC else .FIELD
    let s1 := s.adv
    let tr := parseType fuel false s1
    match tr.1 with
    | none => (none, tr.2.synchronize)
    | some ty =>
      let nr := cvNamesLoop fuel [] tr.2
      match nr.1 with
      | none => (none, nr.2)
      | some names => (some ⟨kind, ty, names, line, col⟩, nr.2.expect .SYMBOL ";")

/-- The name-list do-while of `parseClassVarDec` (a missing name reports,
synchronizes and abandons the whole declaration). -/
def cvNamesLoop : Nat → List String → PState → Option (List String) × PState
  | 0, acc, s => (some acc, s)
  | fuel + 1, acc, s =>
    if s.cur.type = TokenType.IDENTIFIER then
      let acc2 := acc ++ [s.cur.value]
      match s.adv.tryMatch .SYMBOL "," with
      | (true, s2) => cvNamesLoop fuel acc2 s2
      | (false, s2) => (some acc2, s2)
    else
      (none, (s.report "Expected variable name in class variable declaration.").synchronize)

/-- `PrattParser::parseSubroutineDec`. -/
def parseSubroutineDec : Nat → PState → Option SubroutineDecNode × PState
  | 0, s => (none, s)
  | fuel + 1, s =>
    let line := s.cur.line
    let col := s.cur.col
    let val := s.cur.value
    let subType : SubroutineType :=
      if val = "constructor" then .CONSTRUCTOR
      else if val = "function" then .FUNCTION
      else .METHOD
    let s1 := s.adv
    let rr := parseType fuel true s1
    match rr.1 with
    | none => (none, rr.2.synchronize)
    | some returnType =>
      let name := rr.2.cur.value
      let s2 := (rr.2.expect .IDENTIFIER "").expect .SYMBOL "("
      let pr := parseParameterList fuel s2
      let s3 := (pr.2.expect .SYMBOL ")").expect .SYMBOL "\x7b"
      let lr := parseLocalVars fuel [] s3
      let br := parseStatements fuel lr.2
      let s4 := br.2.expect .SYMBOL "\x7d"
      (some ⟨subType, returnType, name, pr.1, lr.1, br.1, line, col⟩, s4)

/-- `PrattParser::parseClass`: header, body loop, the
at-least-one-constructor rule, closing brace. -/
def parseClass : Nat → PState → ClassNode × PState
  | 0, s => (⟨"", [], [], 0, 0⟩, s)
  | fuel + 1, s =>
    let line := s.cur.line
    let col := s.cur.col
    let s1 := s.expect .KEYWORD "class"
    let className := s1.cur.value
    let s2 := (s1.expect .IDENTIFIER "").expect .SYMBOL "\x7b"
    let br := classBodyLoop fuel [] [] false s2
    let s3 :=
      if ¬ br.2.2.1 then
        br.2.2.2.report ("Class '" ++ className ++ "' must have at least one constructor.")
      else br.2.2.2
    (⟨className, br.1, br.2.1, line, col⟩, s3.expect .SYMBOL "\x7d")

/-- The member loop of `parseClass`: class variables (which must precede
subroutines), subroutines (tracking whether a constructor occurred), or a
report-and-synchronize on anything else. -/
def classBodyLoop : Nat → List ClassVarDecNode → List SubroutineDecNode → Bool → PState →
    List ClassVarDecNode × List SubroutineDecNode × Bool × PState
  | 0, vars, subs, hasCtor, s => (vars, subs, hasCtor, s)
  | fuel + 1, vars, subs, hasCtor, s =>
    if ¬ s.check .SYMBOL "\x7d" && ¬ s.check .END_OF_FILE "" then
      let val := s.cur.value
      if val = "static" || val = "field" then
        if ¬ subs.isEmpty then
          classBodyLoop fuel vars subs hasCtor
            ((s.report "Class variables must be declared before subroutines.").synchronize)
        else
          let r := parseClassVarDec fuel s
          classBodyLoop fuel (vars ++ r.1.toList) subs hasCtor r.2
      else if val = "constructor" || val = "function" || val = "method" then
        let hasCtor2 := hasCtor || val = "constructor"
        let r := parseSubroutineDec fuel s
        classBodyLoop fuel vars (subs ++ r.1.toList) hasCtor2 r.2
      else
        classBodyLoop fuel vars subs hasCtor
          ((s.report "Only 'static', 'field', 'constructor', 'function', or 'method' allowed in class scope.").synchronize)
    else (vars, subs, hasCtor, s)

end

/-- `PrattParser::parse`: one class per file, then no trailing junk. -/
def PrattParser.parse (fuel : Nat) (s : PState) : ClassNode × PState :=
  let r := parseClass fuel s
  if ¬ r.2.check .END_OF_FILE "" then
    (r.1, r.2.report "Unexpected tokens after class definition. A single file can contain only one class")
  else r

/-- Modelled from the spec: the CodeGenerator sources are not under the
checked-in tree (only `main.cpp` calls it), so expression lowering follows
spec §4.6 — post-order stack code; `IntLit n → push constant n`;
`true → push constant 0; not`; `false/null → push constant 0`;
`this → push pointer 0`; unary `- → neg`, `~ → not`; binary
`+ - & | < > =` to `add sub and or lt gt eq` and `* /` to
`call Math.multiply 2` / `call Math.divide 2`.  Constructs whose lowering
needs symbol-table context (identifiers, calls, arrays, strings) are
outside the modelled fragment, yielding `none`. -/
def genExpr : Expr → Option (List String)
  | .intLit n _ _ => some ["push constant " ++ toString n]
  | .keywordLit .TRUE_ _ _ => some ["push constant 0", "not"]
  | .keywordLit .FALSE_ _ _ => some ["push constant 0"]
  | .keywordLit .NULL_ _ _ => some ["push constant 0"]
  | .keywordLit .THIS_ _ _ => some ["push pointer 0"]
  | .unaryOp op e _ _ =>
    match e with
    | none => none
    | some e0 =>
      match genExpr e0 with
      | none => none
      | some code =>
        if op = '-' then some (code ++ ["neg"])
        else if op = '~' then some (code ++ ["not"])
        else none
  | .binaryOp l op r _ _ =>
    match l with
    | none => none
    | some l0 =>
      match genExpr l0, genExpr r with
      | some lc, some rc =>
        if op = '+' then some (lc ++ rc ++ ["add"])
        else if op = '-' then some (lc ++ rc ++ ["sub"])
        else if op = '&' then some (lc ++ rc ++ ["and"])
        else if op = '|' then some (lc ++ rc ++ ["or"])
        else if op = '<' then some (lc ++ rc ++ ["lt"])
        else if op = '>' then some (lc ++ rc ++ ["gt"])
        else if op = '=' then some (lc ++ rc ++ ["eq"])
        else if op = '*' then some (lc ++ rc ++ ["call Math.multiply 2"])
        else if op = '/' then some (lc ++ rc ++ ["call Math.divide 2"])
        else none
      | _, _ => none
  | _ => none

/-- Modelled from the spec (CodeGenerator sources absent): `Return` lowering
per §4.6 — no expression pushes `constant 0`, then `return`; with an
expression, the expression's code then `return`.  Other statements are
outside the modelled fragment. -/
def genStmt : Stmt → Option (List String)
  | .returnStmt none _ _ => some ["push constant 0", "return"]
  | .returnStmt (some e) _ _ =>
    match genExpr e with
    | none => none
    | some code => some (code ++ ["return"])
  | _ => none

/-- Sequence the lowering of a statement list. -/
def genStmts : List Stmt → Option (List String)
  | [] => some []
  | st :: rest =>
    match genStmt st, genStmts rest with
    | some c, some cs => some (c ++ cs)
    | _, _ => none

/-- Number of `Local` symbols a subroutine declares: every name of every
`var` line becomes one `Local`. -/
def SubroutineDecNode.nLocals (sub : SubroutineDecNode) : Nat :=
  (sub.locals.map (fun d => d.names.length)).sum

/-- Modelled from the spec (CodeGenerator sources absent): the subroutine
prologue per §4.6 — the `function ClassName.subName nLocals` directive,
then for a constructor `push constant nFields`, `call Memory.alloc 1`,
`pop pointer 0`; for a method `push argument 0`, `pop pointer 0`; nothing
more for a function. -/
def subroutinePrologue (className : String) (sub : SubroutineDecNode)
    (nFields : Nat) : List String :=
  ["function " ++ className ++ "." ++ sub.name ++ " " ++ toString sub.nLocals] ++
  (match sub.subType with
   | .CONSTRUCTOR => ["push constant " ++ toString nFields, "call Memory.alloc 1", "pop pointer 0"]
   | .METHOD => ["push argument 0", "pop pointer 0"]
   | .FUNCTION => [])

/-- Modelled from the spec (CodeGenerator sources absent): VM code of one
subroutine — the prologue followed by the lowered body. -/
def compileSubroutine (className : String) (sub : SubroutineDecNode)
    (nFields : Nat) : Option (List String) :=
  match genStmts sub.body with
  | none => none
  | some body => some (subroutinePrologue className sub nFields ++ body)

/-- A reachable registry in which `Main.main` is registered as a
`CONSTRUCTOR` with return type `void`. -/
def mainAsCtorRegistry : GlobalRegistry :=
  ((GlobalRegistry.empty.registerClass "Main").2.registerMethod "Main" "main"
    ⟨JackType.mk "void" [], [], .CONSTRUCTOR, 1, 1⟩).2

/-- C1 counterexample: with `Main.main` registered as a constructor (so not
a `Function`) returning `void`, the claim predicts the build fails, but
`validateMainEntry` accepts it (its `isStatic` check passes constructors),
so the build proceeds. -/
theorem validateMainEntry_rejects_ctor_counterexample :
    (mainAsCtorRegistry.getSignature "Main" "main").map (fun sig => sig.subKind) =
      some SubroutineType.CONSTRUCTOR ∧
    validateMainEntry mainAsCtorRegistry = true := by
  exact ⟨rfl, rfl⟩

/-- C1 (amended): `validateMainEntry` fails exactly when `Main.main` is
absent from the registry, is a `Method` (the only non-static kind — a
`Constructor` passes the static check), or does not return `void`; in every
other case the main-entry check passes. -/
theorem validateMainEntry_fail_iff (r : GlobalRegistry) :
    validateMainEntry r = false ↔
      r.getSignature "Main" "main" = none ∨
      ∃ sig, r.getSignature "Main" "main" = some sig ∧
        (sig.subKind = SubroutineType.METHOD ∨ sig.returnType ≠ JackType.mk "void" []) := by
  unfold validateMainEntry
  cases h : r.getSignature "Main" "main" with
  | none => simp
  | some sig =>
    simp only [h, Option.some.injEq, reduceCtorEq, false_or]
    cases hk : sig.subKind with
    | METHOD =>
      simp only [MethodSignature.isStatic, hk]
      constructor
      · intro _
        exact ⟨sig, rfl, Or.inl hk⟩
      · intro _
        simp
    | FUNCTION =>
      simp only [MethodSignature.isStatic, hk]
      by_cases hv : sig.returnType = JackType.mk "void" []
      · simp only [hv]
        constructor
        · intro hfalse
          simp at hfalse
        · rintro ⟨sig2, hsig2, hbad⟩
          cases hsig2
          rcases hbad with hbad | hbad
          · rw [hk] at hbad
            cases hbad
          · exact absurd hv hbad
      · constructor
        · intro _
          exact ⟨sig, rfl, Or.inr hv⟩
        · intro _
          simp [hv]
    | CONSTRUCTOR =>
      simp only [MethodSignature.isStatic, hk]
      by_cases hv : sig.returnType = JackType.mk "void" []
      · simp only [hv]
        constructor
        · intro hfalse
          simp at hfalse
        · rintro ⟨sig2, hsig2, hbad⟩
          cases hsig2
          rcases hbad with hbad | hbad
          · rw [hk] at hbad
            cases hbad
          · exact absurd hv hbad
      · constructor
        · intro _
          exact ⟨sig, rfl, Or.inr hv⟩
        · intro _
          simp [hv]

/-- C2 counterexample: `classExists "float"` holds on a fresh registry even
though `float` was never registered and is not one of the claim's four
primitive names `int, char, boolean, void`. -/
theorem classExists_float_counterexample :
    GlobalRegistry.empty.classExists "float" = true ∧
    ("float" ∈ ["int", "char", "boolean", "void"] ↔ False) ∧
    GlobalRegistry.empty.classes = [] := by
  refine ⟨rfl, by simp, rfl⟩

/-- Class-name membership of a registry folded from `registerClass` calls:
the classes registered so far plus the seed registry's. -/
theorem mem_foldl_registerClass (names : List String) (r : GlobalRegistry) (q : String) :
    q ∈ (names.foldl (fun acc n => (acc.registerClass n).2) r).classes ↔
      q ∈ r.classes ∨ q ∈ names := by
  induction names generalizing r with
  | nil => simp
  | cons n rest ih =>
    simp only [List.foldl_cons, ih]
    unfold GlobalRegistry.registerClass
    by_cases h : n ∈ r.classes
    · simp only [if_pos h, List.mem_cons]
      constructor
      · tauto
      · rintro (hq | rfl | hq) <;> tauto
    · simp only [if_neg h, List.mem_cons]
      tauto

/-- C2 (amended): on any registry reachable by a sequence of
`registerClass` calls, `classExists(name)` holds exactly when `name` is one
of the five built-in type names `int, char, boolean, float, void` or was
previously registered. -/
theorem classExists_iff (names : List String) (q : String) :
    (registryOfClasses names).classExists q = true ↔
      q ∈ ["int", "char", "boolean", "float", "void"] ∨ q ∈ names := by
  unfold GlobalRegistry.classExists registryOfClasses
  by_cases hp : q = "int" ∨ q = "char" ∨ q = "boolean" ∨ q = "float" ∨ q = "void"
  · rw [if_pos (by rcases hp with h | h | h | h | h <;> simp [h])]
    simp only [List.mem_cons, List.not_mem_nil, or_false, true_iff]
    tauto
  · rw [if_neg (by simp only [Bool.or_eq_true, decide_eq_true_iff]; push_neg at hp; tauto)]
    rw [decide_eq_true_iff, mem_foldl_registerClass]
    simp only [GlobalRegistry.empty, List.not_mem_nil, false_or, List.mem_cons]
    constructor
    · intro h
      tauto
    · rintro (h | h)
      · exact absurd (by simpa using h) hp
      · exact h

/-- A hit of `poolFind` reads back the queried type: the entry stored at the
returned index is structurally equal to the argument. -/
theorem poolFind_getElem (ps : List JackType) (t : JackType) (i : Nat)
    (h : poolFind ps t = some i) : ps[i]? = some t := by
  induction ps generalizing i with
  | nil => simp [poolFind] at h
  | cons u rest ih =>
    by_cases he : typeEq u t
    · have hu : u = t := (typeEq_iff u t).mp he
      simp only [poolFind, if_pos he, Option.some.injEq] at h
      subst hu
      rw [← h]
      simp
    · simp only [poolFind, if_neg he, Option.map_eq_some'] at h
      obtain ⟨j, hj, rfl⟩ := h
      simpa using ih j hj

/-- A hit of `poolFind` is an index into the pool. -/
theorem poolFind_lt_length (ps : List JackType) (t : JackType) (i : Nat)
    (h : poolFind ps t = some i) : i < ps.length := by
  have := poolFind_getElem ps t i h
  exact (List.getElem?_eq_some.mp this).1

/-- `poolFind` misses exactly when no structurally equal entry is pooled. -/
theorem poolFind_eq_none_iff (ps : List JackType) (t : JackType) :
    poolFind ps t = none ↔ t ∉ ps := by
  induction ps with
  | nil => simp [poolFind]
  | cons u rest ih =>
    by_cases he : typeEq u t
    · have hu : u = t := (typeEq_iff u t).mp he
      simp only [poolFind, if_pos he]
      constructor
      · intro h
        cases h
      · intro h
        exact absurd (List.mem_cons.mpr (Or.inl hu.symm)) h
    · have hu : u ≠ t := fun hc => he ((typeEq_iff u t).mpr hc)
      simp only [poolFind, if_neg he, Option.map_eq_none', ih, List.mem_cons]
      constructor
      · intro h hc
        rcases hc with hc | hc
        · exact hu hc.symm
        · exact h hc
      · intro h
        exact fun hc => h (Or.inr hc)

/-- A hit in the first part of an appended pool is a hit in the whole. -/
theorem poolFind_append_left (ps qs : List JackType) (t : JackType) (i : Nat)
    (h : poolFind ps t = some i) : poolFind (ps ++ qs) t = some i := by
  induction ps generalizing i with
  | nil => simp [poolFind] at h
  | cons u rest ih =>
    by_cases he : typeEq u t
    · simp only [poolFind, if_pos he, Option.some.injEq] at h ⊢
      exact h
    · simp only [poolFind, if_neg he, Option.map_eq_some'] at h
      obtain ⟨j, hj, rfl⟩ := h
      simp only [List.cons_append, poolFind, if_neg he, List.append_eq, ih j hj,
        Option.map_some']

/-- A miss in the first part shifts the search into the appended tail. -/
theorem poolFind_append_none (ps qs : List JackType) (t : JackType)
    (h : poolFind ps t = none) :
    poolFind (ps ++ qs) t = (poolFind qs t).map (· + ps.length) := by
  induction ps with
  | nil => simp
  | cons u rest ih =>
    by_cases he : typeEq u t
    · simp [poolFind, if_pos he] at h
    · simp only [poolFind, if_neg he, Option.map_eq_none'] at h
      simp only [List.cons_append, poolFind, if_neg he, List.append_eq, ih h,
        Option.map_map, List.length_cons]
      cases poolFind qs t with
      | none => simp
      | some k =>
        simp only [Option.map_some', Function.comp_apply, Option.some.injEq]
        omega

/-- C7: two successive `getOrCreate` calls hand back the same pointer
exactly when the two requested types are structurally equal — so equal
types always share one stable canonical instance, and distinct types never
collide. -/
theorem getOrCreate_same_ptr_iff (pool : List JackType) (t1 t2 : JackType) :
    (getOrCreate pool t1).1 = (getOrCreate (getOrCreate pool t1).2 t2).1 ↔ t1 = t2 := by
  unfold getOrCreate
  cases h1 : poolFind pool t1 with
  | some i =>
    cases h2 : poolFind pool t2 with
    | some j =>
      simp only
      constructor
      · intro hij
        have g1 := poolFind_getElem pool t1 i h1
        have g2 := poolFind_getElem pool t2 j h2
        rw [hij, g2] at g1
        exact (Option.some.inj g1).symm
      · rintro rfl
        rw [h1] at h2
        exact Option.some.inj h2
    | none =>
      simp only
      have hi := poolFind_lt_length pool t1 i h1
      constructor
      · intro hij
        omega
      · rintro rfl
        rw [h1] at h2
        cases h2
  | none =>
    cases h2 : poolFind pool t2 with
    | some j =>
      simp only [poolFind_append_left pool [t1] t2 j h2]
      have hj := poolFind_lt_length pool t2 j h2
      constructor
      · intro hij
        omega
      · rintro rfl
        rw [h1] at h2
        cases h2
    | none =>
      rw [poolFind_append_none pool [t1] t2 h2]
      by_cases he : typeEq t1 t2
      · have ht : t1 = t2 := (typeEq_iff t1 t2).mp he
        subst ht
        simp [poolFind, if_pos he]
      · have ht : t1 ≠ t2 := fun hc => he ((typeEq_iff t1 t2).mpr hc)
        simp only [poolFind, if_neg he, Option.map_none', List.length_append,
          List.length_cons, List.length_nil]
        constructor
        · intro hlen
          omega
        · intro hc
          exact absurd hc ht

/-- A symbol table holding a class-scope `STATIC x`. -/
def stClassX : Option SymbolTable := SymbolTable.empty.define "x" "int" .STATIC 1 1

/-- The same table after additionally defining a subroutine-scope `ARG x`. -/
def stShadowX : Option SymbolTable :=
  stClassX.bind (fun st => st.define "x" "int" .ARG 2 2)

/-- C8 counterexample: defining the subroutine-scope symbol `x` (an `Arg`)
succeeds although `x` already exists in the class scope as a `Static`, and
`lookup` then resolves `x` to the subroutine-scope symbol — the class-scope
name is shadowed, not rejected. -/
theorem define_shadowing_counterexample :
    stShadowX.isSome = true ∧
    (stShadowX.bind (fun st => st.lookup "x")).map (fun sym => sym.kind) =
      some SymbolKind.ARG ∧
    (stShadowX.bind (fun st => alistFind "x" st.classScope)).map (fun sym => sym.kind) =
      some SymbolKind.STATIC := by
  exact ⟨rfl, rfl, rfl⟩

/-- C8 (amended): defining a subroutine-scope symbol (`Arg` or `Local`) is
rejected exactly when the name already exists in the subroutine scope — the
class scope plays no part in the duplicate check, so a subroutine-scope
name may shadow a class-scope name; `lookup` then resolves the name to the
subroutine-scope symbol first. -/
theorem define_subscope_iff (st : SymbolTable) (name ty : String) (k : SymbolKind)
    (l c : Int) (hk : k = SymbolKind.ARG ∨ k = SymbolKind.LCL) :
    ((st.define name ty k l c).isSome = true ↔ alistFind name st.subRoutineScope = none) ∧
    (∀ sym, alistFind name st.subRoutineScope = some sym → st.lookup name = some sym) := by
  constructor
  · rcases hk with rfl | rfl <;>
    · unfold SymbolTable.define
      cases h : alistFind name st.subRoutineScope <;>
        simp [SymbolKind.isClassScoped, h]
  · intro sym h
    unfold SymbolTable.lookup
    rw [h]

/-- C8 witness: the amended statement applied at the empty table and an
`Arg`: the definition succeeds (the subroutine scope is empty) and lookup
resolution is as stated. -/
theorem define_subscope_iff_witness :
    ((SymbolTable.empty.define "x" "int" .ARG 0 0).isSome = true ↔
      alistFind "x" SymbolTable.empty.subRoutineScope = none) ∧
    (∀ sym, alistFind "x" SymbolTable.empty.subRoutineScope = some sym →
      SymbolTable.empty.lookup "x" = some sym) :=
  define_subscope_iff SymbolTable.empty "x" "int" .ARG 0 0 (Or.inl rfl)

/-- The constructor `A.new` of the spec's first concrete scenario:
`constructor A new() { return this; }`, no fields, no locals. -/
def aNewCtor : SubroutineDecNode :=
  ⟨.CONSTRUCTOR, JackType.mk "A" [], "new", [], [],
   [.returnStmt (some (.keywordLit .THIS_ 1 30)) 1 23], 1, 11⟩

/-- C9: the VM code of every constructor (in the modelled fragment) begins
with `function ClassName.subName nLocals`, `push constant nFields`,
`call Memory.alloc 1`, `pop pointer 0`; and `A.new` with no fields and no
locals compiles to exactly the six expected lines. -/
theorem constructor_prologue (className : String) (sub : SubroutineDecNode)
    (nFields : Nat) (out : List String) (hctor : sub.subType = .CONSTRUCTOR)
    (h : compileSubroutine className sub nFields = some out) :
    out.take 4 =
      ["function " ++ className ++ "." ++ sub.name ++ " " ++ toString sub.nLocals,
       "push constant " ++ toString nFields, "call Memory.alloc 1", "pop pointer 0"] ∧
    compileSubroutine "A" aNewCtor 0 =
      some ["function A.new 0", "push constant 0", "call Memory.alloc 1",
            "pop pointer 0", "push pointer 0", "return"] := by
  refine ⟨?_, rfl⟩
  unfold compileSubroutine at h
  cases hb : genStmts sub.body with
  | none => rw [hb] at h; cases h
  | some body =>
    rw [hb] at h
    have hout : out = subroutinePrologue className sub nFields ++ body := (Option.some.inj h).symm
    rw [hout]
    unfold subroutinePrologue
    rw [hctor]
    rfl

/-- C9 witness: the prologue statement applied to `A.new` itself. -/
theorem constructor_prologue_witness :
    (["function A.new 0", "push constant 0", "call Memory.alloc 1",
      "pop pointer 0", "push pointer 0", "return"].take 4 =
      ["function " ++ "A" ++ "." ++ aNewCtor.name ++ " " ++ toString aNewCtor.nLocals,
       "push constant " ++ toString 0, "call Memory.alloc 1", "pop pointer 0"]) ∧
    compileSubroutine "A" aNewCtor 0 =
      some ["function A.new 0", "push constant 0", "call Memory.alloc 1",
            "pop pointer 0", "push pointer 0", "return"] :=
  constructor_prologue "A" aNewCtor 0
    ["function A.new 0", "push constant 0", "call Memory.alloc 1",
     "pop pointer 0", "push pointer 0", "return"] rfl rfl

/-- C3: whenever parsing the body expression of a `do` statement at lowest
precedence yields an expression that is not a `Call`, `parseDoStatement`
reports "The 'do' keyword must be followed by a subroutine call." and
produces no statement node. -/
theorem parseDoStatement_requires_call (fuel : Nat) (s : PState) (e : Expr) (s2 : PState)
    (h : parseExpression fuel Prec.LOWEST s.adv = (some e, s2))
    (hnc : e.isCall = false) :
    parseDoStatement (fuel + 1) s =
      (none, s2.report "The 'do' keyword must be followed by a subroutine call.") := by
  simp [parseDoStatement, h, hnc]

/-- C3 witness: `do 5 ;` — the literal `5` is not a call, so the statement
is rejected with the expected diagnostic and no node. -/
theorem parseDoStatement_requires_call_witness :
    parseDoStatement 11 ⟨[kwTok .DO 1 1, intTok 5 1 4, symTok ";" 1 5, eofTok], []⟩ =
      (none, PState.report ⟨[symTok ";" 1 5, eofTok], []⟩
        "The 'do' keyword must be followed by a subroutine call.") :=
  parseDoStatement_requires_call 10 ⟨[kwTok .DO 1 1, intTok 5 1 4, symTok ";" 1 5, eofTok], []⟩
    (.intLit 5 1 4) ⟨[symTok ";" 1 5, eofTok], []⟩ rfl rfl

/-- The token stream of `class A { }` with the `class` keyword at (1,1) and
the closing brace at (2,5): a class with no constructor. -/
def classNoCtorToks : PState :=
  ⟨[kwTok .CLASS 1 1, identTok "A" 1 7, symTok "\x7b" 1 9, symTok "\x7d" 2 5, eofTok], []⟩

/-- C4 counterexample: for the constructor-less class `A` whose `class`
keyword sits at line 1 column 1 and whose closing brace sits at line 2
column 5, the missing-constructor error is recorded at (2,5) — the current
token when the check runs — while the class node's own location is (1,1),
so the error is not at the class's line and column. -/
theorem parseClass_ctor_error_location_counterexample :
    (parseClass 10 classNoCtorToks).1.line = 1 ∧
    (parseClass 10 classNoCtorToks).1.col = 1 ∧
    (parseClass 10 classNoCtorToks).2.errors =
      [⟨2, 5, "Class 'A' must have at least one constructor."⟩] ∧
    (∀ err ∈ (parseClass 10 classNoCtorToks).2.errors,
      ¬(err.line = 1 ∧ err.column = 1)) := by
  refine ⟨rfl, rfl, rfl, ?_⟩
  decide

/-- The state and accumulated members after `parseClass` has consumed the
`class` header (`class`, the name, `\x7b`) and run the member loop: the
class variables, the subroutines, the has-constructor flag, and the parser
state whose current token is where the body ended. -/
def classBodyResult (fuel : Nat) (s : PState) :
    List ClassVarDecNode × List SubroutineDecNode × Bool × PState :=
  classBodyLoop fuel [] [] false
    (((s.expect .KEYWORD "class").expect .IDENTIFIER "").expect .SYMBOL "\x7b")

/-- C4 (amended): for every parsed class — any token stream, any members —
whose body loop finds no subroutine declared with the `constructor` keyword
(the flag of `classBodyResult` is false), the parser appends the error
"Class 'X' must have at least one constructor." located at the line and
column of the token current when the class body ends (the closing brace or
wherever the loop stopped), while the class's own line and column go into
the `ClassNode` instead. -/
theorem parseClass_missing_ctor_error (fuel : Nat) (s : PState)
    (h : (classBodyResult fuel s).2.2.1 = false) :
    parseClass (fuel + 1) s =
      (⟨(s.expect .KEYWORD "class").cur.value, (classBodyResult fuel s).1,
        (classBodyResult fuel s).2.1, s.cur.line, s.cur.col⟩,
       PState.expect
         ⟨(classBodyResult fuel s).2.2.2.tokens,
          (classBodyResult fuel s).2.2.2.errors ++
            [⟨(classBodyResult fuel s).2.2.2.cur.line, (classBodyResult fuel s).2.2.2.cur.col,
              "Class '" ++ (s.expect .KEYWORD "class").cur.value ++
                "' must have at least one constructor."⟩]⟩
         .SYMBOL "\x7d") := by
  have h2 : (classBodyLoop fuel [] [] false
      (((s.expect .KEYWORD "class").expect .IDENTIFIER "").expect .SYMBOL "\x7b")).2.2.1 =
        false := h
  simp only [parseClass, classBodyResult, PState.report, h2]
  simp

/-- C4 witness: the amended statement applied to the constructor-less class
`class A \x7b \x7d` of the counterexample: the error lands at (2,5), the
closing brace, and the node at (1,1). -/
theorem parseClass_missing_ctor_error_witness :
    parseClass 10 classNoCtorToks =
      (⟨"A", [], [], 1, 1⟩,
       ⟨[eofTok], [⟨2, 5, "Class 'A' must have at least one constructor."⟩]⟩) :=
  parseClass_missing_ctor_error 9 classNoCtorToks rfl

/-- Token stream `a <op> b <op> c` for a binary operator lexeme. -/
def chainToks (op : String) : PState :=
  ⟨[identTok "a" 0 0, symTok op 0 0, identTok "b" 0 0, symTok op 0 0,
    identTok "c" 0 0, eofTok], []⟩

/-- C5: every binary operator of the dispatch table parses
left-associatively — `a op b op c` becomes `(a op b) op c` — except `=`,
which is right-associative: `a = b = c` becomes `a = (b = c)`. -/
theorem binary_assoc :
    (∀ op ∈ (["+", "-", "*", "/", "&", "|", "<", ">"] : List String),
      (parseExpression 30 Prec.LOWEST (chainToks op)).1 =
        some (.binaryOp
          (some (.binaryOp (some (.ident "a" [] 0 0)) (strHead op) (.ident "b" [] 0 0) 0 0))
          (strHead op) (.ident "c" [] 0 0) 0 0)) ∧
    (parseExpression 30 Prec.LOWEST (chainToks "=")).1 =
      some (.binaryOp (some (.ident "a" [] 0 0)) '='
        (.binaryOp (some (.ident "b" [] 0 0)) '=' (.ident "c" [] 0 0) 0 0) 0 0) := by
  constructor
  · intro op hop
    fin_cases hop <;> rfl
  · rfl

/-- C5 witness: the left-associativity statement applied at `-`:
`a - b - c` parses as `(a - b) - c`. -/
theorem binary_assoc_witness :
    (parseExpression 30 Prec.LOWEST (chainToks "-")).1 =
      some (.binaryOp
        (some (.binaryOp (some (.ident "a" [] 0 0)) (strHead "-") (.ident "b" [] 0 0) 0 0))
        (strHead "-") (.ident "c" [] 0 0) 0 0) :=
  binary_assoc.1 "-" (by simp)

/-- Tokens at which the `synchronize` loop stops discarding: end of input,
a `;`, or one of the safe-harbor keywords. -/
def stopTok (t : Token) : Bool :=
  t.type = .END_OF_FILE || (t.type = .SYMBOL && t.value = ";") ||
  (t.type = .KEYWORD && isHarborKeyword t.value)

/-- Shape of `syncLoop`: some prefix of non-stop tokens is discarded, and
the loop ends at the end of input (empty result), at a `;` (consumed), or
at a safe-harbor keyword or EOF token (left on the stream). -/
theorem syncLoop_characterization (ts : List Token) :
    ∃ n, (∀ t ∈ ts.take n, stopTok t = false) ∧
      ((ts.drop n = [] ∧ syncLoop ts = []) ∨
       (∃ t rest, ts.drop n = t :: rest ∧
         ((t.type = .END_OF_FILE ∧ syncLoop ts = t :: rest) ∨
          (t.type = .SYMBOL ∧ t.value = ";" ∧ syncLoop ts = rest) ∨
          (t.type = .KEYWORD ∧ isHarborKeyword t.value = true ∧
            syncLoop ts = t :: rest)))) := by
  induction ts with
  | nil => exact ⟨0, by simp, Or.inl ⟨rfl, rfl⟩⟩
  | cons t rest ih =>
    by_cases h1 : t.type = .END_OF_FILE
    · refine ⟨0, by simp, Or.inr ⟨t, rest, rfl, Or.inl ⟨h1, ?_⟩⟩⟩
      simp [syncLoop, h1]
    · by_cases h2 : t.type = .SYMBOL ∧ t.value = ";"
      · refine ⟨0, by simp, Or.inr ⟨t, rest, rfl, Or.inr (Or.inl ⟨h2.1, h2.2, ?_⟩)⟩⟩
        simp [syncLoop, h1, h2.1, h2.2]
      · by_cases h3 : t.type = .KEYWORD ∧ isHarborKeyword t.value = true
        · refine ⟨0, by simp, Or.inr ⟨t, rest, rfl, Or.inr (Or.inr ⟨h3.1, h3.2, ?_⟩)⟩⟩
          have hsym : t.type ≠ TokenType.SYMBOL := by
            rw [h3.1]
            intro hc
            cases hc
          simp [syncLoop, h1, hsym, h3.1, h3.2]
        · obtain ⟨n, hpre, hrest⟩ := ih
          have hc2 : (decide (t.type = TokenType.SYMBOL) && decide (t.value = ";")) = false := by
            rw [Bool.and_eq_false_iff]
            by_cases hs : t.type = TokenType.SYMBOL
            · right
              simp only [decide_eq_false_iff_not]
              exact fun hv => h2 ⟨hs, hv⟩
            · left
              simp [hs]
          have hc3 : (decide (t.type = TokenType.KEYWORD) && isHarborKeyword t.value) = false := by
            rw [Bool.and_eq_false_iff]
            by_cases hkw : t.type = TokenType.KEYWORD
            · right
              rw [Bool.eq_false_iff]
              exact fun hv => h3 ⟨hkw, hv⟩
            · left
              simp [hkw]
          have hstep : syncLoop (t :: rest) = syncLoop rest := by
            simp only [syncLoop, if_neg h1, hc2, hc3]
            simp
          have hstop : stopTok t = false := by
            unfold stopTok
            rw [Bool.or_eq_false_iff, Bool.or_eq_false_iff]
            refine ⟨⟨by simp [h1], ?_⟩, ?_⟩
            · rw [Bool.and_eq_false_iff]
              by_cases hs : t.type = TokenType.SYMBOL
              · right
                simp only [decide_eq_false_iff_not]
                intro hv
                exact h2 ⟨hs, hv⟩
              · left
                simp [hs]
            · rw [Bool.and_eq_false_iff]
              by_cases hkw : t.type = TokenType.KEYWORD
              · right
                rw [Bool.eq_false_iff]
                intro hv
                exact h3 ⟨hkw, hv⟩
              · left
                simp [hkw]
          refine ⟨n + 1, ?_, ?_⟩
          · intro u hu
            rw [List.take_succ_cons, List.mem_cons] at hu
            rcases hu with rfl | hu
            · exact hstop
            · exact hpre u hu
          · rw [List.drop_succ_cons, hstep]
            exact hrest

/-- C6: after any parse error, `synchronize` leaves the error list
untouched, first advances exactly one token (everything below speaks of
`s.tokens.tail`), then discards a run of tokens none of which is EOF, `;`,
or a safe-harbor keyword, and stops either at the end of input, at a `;`
(which it consumes), or at EOF or one of
`class constructor function method var let do if while return` (which it
leaves on the stream). -/
theorem synchronize_spec (s : PState) :
    (s.synchronize).errors = s.errors ∧
    ∃ n, (∀ t ∈ s.tokens.tail.take n, stopTok t = false) ∧
      ((s.tokens.tail.drop n = [] ∧ (s.synchronize).tokens = []) ∨
       (∃ t rest, s.tokens.tail.drop n = t :: rest ∧
         ((t.type = .END_OF_FILE ∧ (s.synchronize).tokens = t :: rest) ∨
          (t.type = .SYMBOL ∧ t.value = ";" ∧ (s.synchronize).tokens = rest) ∨
          (t.type = .KEYWORD ∧ isHarborKeyword t.value = true ∧
            (s.synchronize).tokens = t :: rest)))) :=
  ⟨rfl, syncLoop_characterization s.tokens.tail⟩

/-- C10: the parser accepts `float` as a primitive base type in every type
position — class-variable types (`static float x;`), local-variable types
(`var float y;`), parameter types (`float p`), and return types
(`function float f()...`) — each without any diagnostic, and the dispatch
table sends `FLOAT_CONST` tokens to the dedicated float nud, which builds a
`FloatLiteralNode`. -/
theorem float_accepted_everywhere :
    (parseClassVarDec 20 ⟨[kwTok .STATIC 1 1, identTok "float" 1 8, identTok "x" 1 14,
        symTok ";" 1 15, eofTok], []⟩).1.map (fun d => d.type) =
      some (JackType.mk "float" []) ∧
    (parseClassVarDec 20 ⟨[kwTok .STATIC 1 1, identTok "float" 1 8, identTok "x" 1 14,
        symTok ";" 1 15, eofTok], []⟩).2.errors = [] ∧
    (parseLocalVars 20 [] ⟨[kwTok .VAR 2 3, identTok "float" 2 7, identTok "y" 2 13,
        symTok ";" 2 14, symTok "\x7d" 3 1, eofTok], []⟩).1.map (fun d => d.type) =
      [JackType.mk "float" []] ∧
    (parseLocalVars 20 [] ⟨[kwTok .VAR 2 3, identTok "float" 2 7, identTok "y" 2 13,
        symTok ";" 2 14, symTok "\x7d" 3 1, eofTok], []⟩).2.errors = [] ∧
    (parseParameterList 20 ⟨[identTok "float" 1 20, identTok "p" 1 26, symTok ")" 1 27,
        eofTok], []⟩).1.map (fun p => p.type) = [JackType.mk "float" []] ∧
    (parseParameterList 20 ⟨[identTok "float" 1 20, identTok "p" 1 26, symTok ")" 1 27,
        eofTok], []⟩).2.errors = [] ∧
    (parseSubroutineDec 30 ⟨[kwTok .FUNCTION 4 3, identTok "float" 4 12, identTok "f" 4 18,
        symTok "(" 4 19, symTok ")" 4 20, symTok "\x7b" 4 22, kwTok .RETURN 5 5, intTok 1 5 12,
        symTok ";" 5 13, symTok "\x7d" 6 3, eofTok], []⟩).1.map (fun sub => sub.returnType) =
      some (JackType.mk "float" []) ∧
    (parseSubroutineDec 30 ⟨[kwTok .FUNCTION 4 3, identTok "float" 4 12, identTok "f" 4 18,
        symTok "(" 4 19, symTok ")" 4 20, symTok "\x7b" 4 22, kwTok .RETURN 5 5, intTok 1 5 12,
        symTok ";" 5 13, symTok "\x7d" 6 3, eofTok], []⟩).2.errors = [] ∧
    getRule (floatTok "3.14" 7 9) = ⟨some NudTag.float, none, Prec.LOWEST⟩ ∧
    (parseExpression 10 Prec.LOWEST ⟨[floatTok "3.14" 7 9, eofTok], []⟩).1 =
      some (.floatLit "3.14" 7 9) := by
  exact ⟨rfl, rfl, rfl, rfl, rfl, rfl, rfl, rfl, rfl, rfl⟩
